import Mathlib

/-!
# Verification of the host-manager State Store and Cluster Lifecycle Orchestrator

Shallow embedding of the Go sources of `kylape/host-manager`:
* `internal/state` (HostState, ClusterInfo, Manager.Load / Save and the
  higher-level mutators),
* `internal/host/init.go` (the one-shot host initialization sequence),
* `internal/server/server.go` (the HTTP cluster-lifecycle handlers),
* `main.go` (the startup guard around the initializer).

External collaborators (storage detector, package installer, the `kind`
and `podman` binaries) are modelled as an oracle environment `Env` whose
fields give the result of each external call; the on-disk state file is
modelled by `FileRead` (missing / unreadable / unparseable / parsed
content) together with a schedule of write outcomes, so that every
control-flow path of the Go code is represented.
-/

/-- Go `error` values, modelled by their message strings. -/
abbrev GoError := String

/-- `state.ClusterInfo` from `internal/state/types.go`: one entry per managed
cluster.  Timestamps are modelled as natural numbers. -/
structure ClusterInfo where
  status : String
  created : Option Nat
  type : String
  kubevirt : Bool
deriving DecidableEq, Repr

/-- The Go `map[string]ClusterInfo`, modelled as an association list. -/
abbrev Clusters := List (String × ClusterInfo)

/-- Go map lookup `state.Clusters[name]`. -/
def Clusters.find (cs : Clusters) (k : String) : Option ClusterInfo :=
  (List.find? (fun kv => kv.1 == k) cs).map (fun kv => kv.2)

/-- Go map insertion `state.Clusters[name] = info` (replaces any existing
binding for the key). -/
def Clusters.insert (cs : Clusters) (k : String) (v : ClusterInfo) : Clusters :=
  (List.filter (fun kv => kv.1 != k) cs) ++ [(k, v)]

/-- Go map deletion `delete(state.Clusters, name)`. -/
def Clusters.erase (cs : Clusters) (k : String) : Clusters :=
  List.filter (fun kv => kv.1 != k) cs

/-- `state.HostState` from `internal/state/types.go`: the single persisted
aggregate. -/
structure HostState where
  initialized : Bool
  initializedAt : Option Nat
  instanceType : String
  storageType : String
  storageDevice : String
  packagesInstalled : Bool
  baseClusterReady : Bool
  registryRunning : Bool
  clusters : Clusters
deriving DecidableEq, Repr

/-- The result of `json.Unmarshal` into a `HostState`: identical to
`HostState` except that the `clusters` field may be `nil` (the file had no
`clusters` key, or a `null` one), which Go decodes as a nil map. -/
structure RawHostState where
  initialized : Bool
  initializedAt : Option Nat
  instanceType : String
  storageType : String
  storageDevice : String
  packagesInstalled : Bool
  baseClusterReady : Bool
  registryRunning : Bool
  clusters : Option Clusters
deriving DecidableEq, Repr

/-- Serialization of a `HostState` (what `Manager.Save` marshals): the
clusters map is always present. -/
def HostState.toRaw (s : HostState) : RawHostState :=
  { initialized := s.initialized
    initializedAt := s.initializedAt
    instanceType := s.instanceType
    storageType := s.storageType
    storageDevice := s.storageDevice
    packagesInstalled := s.packagesInstalled
    baseClusterReady := s.baseClusterReady
    registryRunning := s.registryRunning
    clusters := some s.clusters }

/-- What `ioutil.ReadFile` + `json.Unmarshal` can observe of the state file. -/
inductive FileRead where
  /-- `ReadFile` fails with `os.IsNotExist`. -/
  | missing : FileRead
  /-- `ReadFile` fails with any other error. -/
  | unreadable (msg : String) : FileRead
  /-- The file exists but `json.Unmarshal` fails on its contents. -/
  | corrupt : FileRead
  /-- The file exists and parses to the given raw state. -/
  | valid (raw : RawHostState) : FileRead
deriving DecidableEq, Repr

/-- `state.StateFilePath`. -/
def StateFilePath : String := "/etc/host-manager-state.json"

/-- `state.Manager.Load` from `internal/state/manager.go`: fresh zero state
when the file does not exist; hard error when it is unreadable or
unparseable; otherwise the parsed state with a nil clusters map replaced by
an empty one. -/
def Manager.Load : FileRead → Except GoError HostState
  | FileRead.missing =>
      Except.ok
        { initialized := false
          initializedAt := none
          instanceType := ""
          storageType := ""
          storageDevice := ""
          packagesInstalled := false
          baseClusterReady := false
          registryRunning := false
          clusters := [] }
  | FileRead.unreadable msg =>
      Except.error ("failed to read state file: " ++ msg)
  | FileRead.corrupt =>
      Except.error "failed to parse state file: invalid character"
  | FileRead.valid raw =>
      Except.ok
        { initialized := raw.initialized
          initializedAt := raw.initializedAt
          instanceType := raw.instanceType
          storageType := raw.storageType
          storageDevice := raw.storageDevice
          packagesInstalled := raw.packagesInstalled
          baseClusterReady := raw.baseClusterReady
          registryRunning := raw.registryRunning
          clusters := raw.clusters.getD [] }

/-- A file-system side effect performed by the state store. -/
inductive FsOp where
  /-- `ioutil.WriteFile(path, ...)`: truncate-and-write in place. -/
  | writeFile (path : String) : FsOp
  /-- `os.Rename(src, dst)`. -/
  | rename (src dst : String) : FsOp
deriving DecidableEq, Repr

/-- The sequence of file-system operations performed by one call to
`state.Manager.Save`: a single direct `ioutil.WriteFile` of the state path
(no temporary file, no rename). -/
def Manager.SaveOps : List FsOp := [FsOp.writeFile StateFilePath]

/-- The file-system state threaded through the model: the current readable
content of the state file, plus a schedule of outcomes for successive
writes (`true` = the next `WriteFile` fails; an exhausted schedule means
all further writes succeed). -/
structure Fs where
  file : FileRead
  writeFails : List Bool
deriving DecidableEq, Repr

/-- `state.Manager.Save`: marshal the full state and write it to the state
file (the marshal step cannot fail for well-formed states). -/
def Manager.Save (fs : Fs) (s : HostState) : Except GoError Unit × Fs :=
  match fs.writeFails with
  | true :: rest =>
      (Except.error "failed to write state file: disk error",
       { file := fs.file, writeFails := rest })
  | false :: rest =>
      (Except.ok (), { file := FileRead.valid s.toRaw, writeFails := rest })
  | [] =>
      (Except.ok (), { file := FileRead.valid s.toRaw, writeFails := [] })

/-- `state.Manager.MarkInitialized`: load → set the initialization fields →
save. -/
def Manager.MarkInitialized (now : Nat) (fs : Fs)
    (instanceType storageType storageDevice : String) :
    Except GoError Unit × Fs :=
  match Manager.Load fs.file with
  | Except.error e => (Except.error e, fs)
  | Except.ok s =>
      Manager.Save fs
        { s with
          initialized := true
          initializedAt := some now
          instanceType := instanceType
          storageType := storageType
          storageDevice := storageDevice
          packagesInstalled := true }

/-- `state.Manager.UpdateCluster`: load → upsert the cluster entry → save. -/
def Manager.UpdateCluster (now : Nat) (fs : Fs)
    (name status clusterType : String) (kubevirt : Bool) :
    Except GoError Unit × Fs :=
  match Manager.Load fs.file with
  | Except.error e => (Except.error e, fs)
  | Except.ok s =>
      Manager.Save fs
        { s with
          clusters := Clusters.insert s.clusters name
            { status := status
              created := some now
              type := clusterType
              kubevirt := kubevirt } }

/-- `state.Manager.RemoveCluster`: load → delete the cluster entry → save. -/
def Manager.RemoveCluster (fs : Fs) (name : String) :
    Except GoError Unit × Fs :=
  match Manager.Load fs.file with
  | Except.error e => (Except.error e, fs)
  | Except.ok s =>
      Manager.Save fs { s with clusters := Clusters.erase s.clusters name }

/-- `state.Manager.SetRegistryStatus`: load → set `registryRunning` → save. -/
def Manager.SetRegistryStatus (fs : Fs) (running : Bool) :
    Except GoError Unit × Fs :=
  match Manager.Load fs.file with
  | Except.error e => (Except.error e, fs)
  | Except.ok s =>
      Manager.Save fs { s with registryRunning := running }

/-- `state.Manager.SetBaseClusterReady`: load → set `baseClusterReady` →
save. -/
def Manager.SetBaseClusterReady (fs : Fs) : Except GoError Unit × Fs :=
  match Manager.Load fs.file with
  | Except.error e => (Except.error e, fs)
  | Except.ok s =>
      Manager.Save fs { s with baseClusterReady := true }

/-- An invocation of an external binary (storage detector, package
installer, `kind`, `podman`), recorded in the call trace. -/
inductive ExtCall where
  | detectStorage : ExtCall
  | getInstanceType : ExtCall
  | installPackages : ExtCall
  | setupNVMe (device : String) : ExtCall
  | setupDefault : ExtCall
  | createRegistry : ExtCall
  | createCluster (name : String) (withRegistry : Bool) : ExtCall
  | deleteCluster (name : String) : ExtCall
  | loadImage (name image : String) : ExtCall
  | getKubeconfig (name : String) : ExtCall
deriving DecidableEq, Repr

/-- `state.StorageConfig`: the descriptor produced by the storage
detector. -/
structure StorageConfig where
  hasNVMe : Bool
  device : String
  type : String
deriving DecidableEq, Repr

/-- Oracle for every external call the core makes, together with the clock
used for timestamps.  Each field gives the outcome the external world
returns for that call. -/
structure Env where
  now : Nat
  detectStorage : Except GoError StorageConfig
  getInstanceType : Except GoError String
  installPackages : Except GoError Unit
  setupNVMeStorage : String → Except GoError Unit
  setupDefaultStorage : Except GoError Unit
  createRegistry : Except GoError Unit
  createCluster : String → Bool → Except GoError Unit
  deleteCluster : String → Except GoError Unit
  loadImage : String → String → Except GoError Unit
  getKubeconfig : String → Except GoError String

/-- `host.Manager.configureStorage` from `internal/host/init.go`: NVMe
descriptors get the NVMe setup path, everything else the default path. -/
def configureStorage (env : Env) (storage : StorageConfig) :
    Except GoError Unit × List ExtCall :=
  if storage.hasNVMe then
    (env.setupNVMeStorage storage.device, [ExtCall.setupNVMe storage.device])
  else
    (env.setupDefaultStorage, [ExtCall.setupDefault])

/-- `host.Manager.createBaseInfrastructure` from `internal/host/init.go`:
create the shared registry, commit `registryRunning = true`, create the
reserved `"kind"` cluster attached to the registry, commit its cluster
entry, commit `baseClusterReady = true`.  Each failure aborts. -/
def createBaseInfra (env : Env) (fs : Fs) :
    Except GoError Unit × Fs × List ExtCall :=
  match env.createRegistry with
  | Except.error e =>
      (Except.error ("failed to create registry: " ++ e), fs,
       [ExtCall.createRegistry])
  | Except.ok _ =>
    match Manager.SetRegistryStatus fs true with
    | (Except.error e, fs1) =>
        (Except.error ("failed to update registry status: " ++ e), fs1,
         [ExtCall.createRegistry])
    | (Except.ok _, fs1) =>
      match env.createCluster "kind" true with
      | Except.error e =>
          (Except.error ("failed to create base cluster: " ++ e), fs1,
           [ExtCall.createRegistry, ExtCall.createCluster "kind" true])
      | Except.ok _ =>
        match Manager.UpdateCluster env.now fs1 "kind" "running"
            "infrastructure" false with
        | (Except.error e, fs2) =>
            (Except.error ("failed to update cluster state: " ++ e), fs2,
             [ExtCall.createRegistry, ExtCall.createCluster "kind" true])
        | (Except.ok _, fs2) =>
          match Manager.SetBaseClusterReady fs2 with
          | (Except.error e, fs3) =>
              (Except.error ("failed to mark base cluster ready: " ++ e), fs3,
               [ExtCall.createRegistry, ExtCall.createCluster "kind" true])
          | (Except.ok _, fs3) =>
              (Except.ok (), fs3,
               [ExtCall.createRegistry, ExtCall.createCluster "kind" true])

/-- `host.Manager.Initialize` from `internal/host/init.go`: the complete
one-shot host initialization sequence — detect storage, detect the
instance type (failure tolerated), install packages, configure storage,
configure SSH (a no-op placeholder), create base infrastructure, and
finally `MarkInitialized`.  Every other failure aborts the run. -/
def initRun (env : Env) (fs : Fs) : Except GoError Unit × Fs × List ExtCall :=
  match env.detectStorage with
  | Except.error e =>
      (Except.error ("failed to detect storage: " ++ e), fs,
       [ExtCall.detectStorage])
  | Except.ok storage =>
    match env.installPackages with
    | Except.error e =>
        (Except.error ("failed to install packages: " ++ e), fs,
         [ExtCall.detectStorage, ExtCall.getInstanceType,
          ExtCall.installPackages])
    | Except.ok _ =>
      match configureStorage env storage with
      | (Except.error e, trS) =>
          (Except.error ("failed to configure storage: " ++ e), fs,
           [ExtCall.detectStorage, ExtCall.getInstanceType,
            ExtCall.installPackages] ++ trS)
      | (Except.ok _, trS) =>
        match createBaseInfra env fs with
        | (Except.error e, fs1, trB) =>
            (Except.error ("failed to create base infrastructure: " ++ e),
             fs1,
             [ExtCall.detectStorage, ExtCall.getInstanceType,
              ExtCall.installPackages] ++ trS ++ trB)
        | (Except.ok _, fs1, trB) =>
          match Manager.MarkInitialized env.now fs1
              (match env.getInstanceType with
               | Except.ok t => t
               | Except.error _ => "unknown")
              storage.type storage.device with
          | (Except.error e, fs2) =>
              (Except.error ("failed to save initialization state: " ++ e),
               fs2,
               [ExtCall.detectStorage, ExtCall.getInstanceType,
                ExtCall.installPackages] ++ trS ++ trB)
          | (Except.ok _, fs2) =>
              (Except.ok (), fs2,
               [ExtCall.detectStorage, ExtCall.getInstanceType,
                ExtCall.installPackages] ++ trS ++ trB)

/-- The startup path of `main.go` around the initializer: load the state
(falling back to a fresh uninitialized value when the load fails), skip
initialization when `initialized` is already true, otherwise run the full
sequence. -/
def startupInit (env : Env) (fs : Fs) :
    Except GoError Unit × Fs × List ExtCall :=
  let hostState :=
    match Manager.Load fs.file with
    | Except.ok s => s
    | Except.error _ =>
        { initialized := false
          initializedAt := none
          instanceType := ""
          storageType := ""
          storageDevice := ""
          packagesInstalled := false
          baseClusterReady := false
          registryRunning := false
          clusters := [] }
  if hostState.initialized then (Except.ok (), fs, [])
  else initRun env fs

/-- `state.ClusterCreateRequest`: the decoded body of a create-cluster
request. -/
structure ClusterCreateRequest where
  name : String
  kubevirt : Bool
deriving DecidableEq, Repr

/-- `state.ClusterResponse`: a cluster as it appears in API responses. -/
structure ClusterResponse where
  name : String
  status : String
  created : Option Nat
  type : String
  kubevirt : Bool
deriving DecidableEq, Repr

/-- Outcome of `Server.handleCreateCluster`, one constructor per response
branch of the Go handler (HTTP status in the comment). -/
inductive CreateResult where
  /-- 400: empty cluster name. -/
  | badRequest (msg : String) : CreateResult
  /-- 500: state load or external cluster creation failed. -/
  | internalError (msg : String) : CreateResult
  /-- 409: the name is already present in state. -/
  | conflict (msg : String) : CreateResult
  /-- 201: created, with the response body. -/
  | created (c : ClusterResponse) : CreateResult
deriving DecidableEq, Repr

/-- `server.Server.handleCreateCluster` from `internal/server/server.go`
(with the request body already decoded): reject empty names, load state,
reject duplicates with 409, call the external tool, then best-effort commit
the new entry (a commit failure is only logged) and answer 201. -/
def handleCreateCluster (env : Env) (fs : Fs) (req : ClusterCreateRequest) :
    CreateResult × Fs × List ExtCall :=
  if req.name = "" then
    (CreateResult.badRequest "Cluster name is required", fs, [])
  else
    match Manager.Load fs.file with
    | Except.error _ =>
        (CreateResult.internalError "Failed to load host state", fs, [])
    | Except.ok hostState =>
      match Clusters.find hostState.clusters req.name with
      | some _ =>
          (CreateResult.conflict ("Cluster " ++ req.name ++ " already exists"),
           fs, [])
      | none =>
        match env.createCluster req.name true with
        | Except.error e =>
            (CreateResult.internalError ("Failed to create cluster: " ++ e),
             fs, [ExtCall.createCluster req.name true])
        | Except.ok _ =>
          let clusterType :=
            if req.name = "kind" then "infrastructure" else "development"
          let upd := Manager.UpdateCluster env.now fs req.name "running"
            clusterType req.kubevirt
          (CreateResult.created
             { name := req.name
               status := "running"
               created := none
               type := clusterType
               kubevirt := req.kubevirt },
           upd.2, [ExtCall.createCluster req.name true])

/-- Outcome of `Server.handleDeleteCluster`. -/
inductive DeleteResult where
  /-- 403: attempt to delete the reserved infrastructure cluster. -/
  | forbidden (msg : String) : DeleteResult
  /-- 500: the external delete failed. -/
  | internalError (msg : String) : DeleteResult
  /-- 200: deleted. -/
  | success (msg : String) : DeleteResult
deriving DecidableEq, Repr

/-- `server.Server.handleDeleteCluster` from `internal/server/server.go`:
refuse the reserved `"kind"` cluster with 403, otherwise delete externally
and then best-effort remove the state entry (a removal failure is only
logged) and answer success. -/
def handleDeleteCluster (env : Env) (fs : Fs) (name : String) :
    DeleteResult × Fs × List ExtCall :=
  if name = "kind" then
    (DeleteResult.forbidden "Cannot delete infrastructure cluster", fs, [])
  else
    match env.deleteCluster name with
    | Except.error e =>
        (DeleteResult.internalError ("Failed to delete cluster: " ++ e),
         fs, [ExtCall.deleteCluster name])
    | Except.ok _ =>
        let rem := Manager.RemoveCluster fs name
        (DeleteResult.success ("Cluster " ++ name ++ " deleted"),
         rem.2, [ExtCall.deleteCluster name])

/-- Outcome of `Server.handleGetCluster`. -/
inductive GetResult where
  /-- 500: state load failed. -/
  | internalError (msg : String) : GetResult
  /-- 404: not in state. -/
  | notFound : GetResult
  /-- 200: found. -/
  | found (c : ClusterResponse) : GetResult
deriving DecidableEq, Repr

/-- `server.Server.handleGetCluster`: a pure read of the State Store. -/
def handleGetCluster (fs : Fs) (name : String) : GetResult :=
  match Manager.Load fs.file with
  | Except.error _ => GetResult.internalError "Failed to load host state"
  | Except.ok hostState =>
    match Clusters.find hostState.clusters name with
    | none => GetResult.notFound
    | some info =>
        GetResult.found
          { name := name
            status := info.status
            created := info.created
            type := info.type
            kubevirt := info.kubevirt }

/-- `server.Server.handleRegistryStart`: ensure the registry container is
up, then best-effort commit `registryRunning = true` (a commit failure is
only logged). -/
def handleRegistryStart (env : Env) (fs : Fs) :
    Bool × Fs × List ExtCall :=
  match env.createRegistry with
  | Except.error _ => (false, fs, [ExtCall.createRegistry])
  | Except.ok _ =>
      let upd := Manager.SetRegistryStatus fs true
      (true, upd.2, [ExtCall.createRegistry])

/-! ## Basic lemmas about the state store -/

/-- Reading back a state that `Save` just wrote yields that state. -/
theorem load_toRaw (s : HostState) :
    Manager.Load (FileRead.valid s.toRaw) = Except.ok s := rfl

/-- If `Save` succeeds, the file now holds the saved state. -/
theorem save_ok_file (fs : Fs) (s : HostState)
    (h : (Manager.Save fs s).1 = Except.ok ()) :
    (Manager.Save fs s).2.file = FileRead.valid s.toRaw := by
  unfold Manager.Save at *
  rcases hw : fs.writeFails with _ | ⟨b, rest⟩
  · rfl
  · cases b
    · rfl
    · rw [hw] at h
      simp at h

/-- If `Save` fails, the file is unchanged. -/
theorem save_fail_file (fs : Fs) (s : HostState) (e : GoError)
    (h : (Manager.Save fs s).1 = Except.error e) :
    (Manager.Save fs s).2.file = fs.file := by
  unfold Manager.Save at *
  rcases hw : fs.writeFails with _ | ⟨b, rest⟩
  · rw [hw] at h; simp at h
  · cases b
    · rw [hw] at h; simp at h
    · rfl

/-- The file loads to a state that is not marked initialized (vacuously true
when it does not load at all). -/
def loadsUninit (f : FileRead) : Prop :=
  ∀ s, Manager.Load f = Except.ok s → s.initialized = false

/-- Every higher-level mutator of the state store is load→mutate→save; this
is the common shape. -/
def loadMutateSave (fs : Fs) (f : HostState → HostState) :
    Except GoError Unit × Fs :=
  match Manager.Load fs.file with
  | Except.error e => (Except.error e, fs)
  | Except.ok s => Manager.Save fs (f s)

theorem markInitialized_eq (now : Nat) (fs : Fs) (it st sd : String) :
    Manager.MarkInitialized now fs it st sd =
      loadMutateSave fs (fun s =>
        { s with
          initialized := true
          initializedAt := some now
          instanceType := it
          storageType := st
          storageDevice := sd
          packagesInstalled := true }) := rfl

theorem updateCluster_eq (now : Nat) (fs : Fs) (name status ct : String)
    (kv : Bool) :
    Manager.UpdateCluster now fs name status ct kv =
      loadMutateSave fs (fun s =>
        { s with
          clusters := Clusters.insert s.clusters name
            { status := status, created := some now, type := ct,
              kubevirt := kv } }) := rfl

theorem removeCluster_eq (fs : Fs) (name : String) :
    Manager.RemoveCluster fs name =
      loadMutateSave fs (fun s =>
        { s with clusters := Clusters.erase s.clusters name }) := rfl

theorem setRegistryStatus_eq (fs : Fs) (b : Bool) :
    Manager.SetRegistryStatus fs b =
      loadMutateSave fs (fun s => { s with registryRunning := b }) := rfl

theorem setBaseClusterReady_eq (fs : Fs) :
    Manager.SetBaseClusterReady fs =
      loadMutateSave fs (fun s => { s with baseClusterReady := true }) := rfl

/-- A mutator either leaves the file unchanged (load or write failed) or
replaces it with the serialized mutated state. -/
theorem loadMutateSave_file_cases (fs : Fs) (f : HostState → HostState) :
    (loadMutateSave fs f).2.file = fs.file ∨
    ∃ s, Manager.Load fs.file = Except.ok s ∧
      (loadMutateSave fs f).2.file = FileRead.valid (HostState.toRaw (f s)) := by
  unfold loadMutateSave
  rcases hl : Manager.Load fs.file with e | s
  · left; rfl
  · rcases hr : (Manager.Save fs (f s)).1 with e | u
    · left; exact save_fail_file _ _ _ hr
    · right; exact ⟨s, rfl, save_ok_file _ _ (by rw [hr])⟩

/-- On success, a mutator stores exactly the mutated loaded state. -/
theorem loadMutateSave_ok_file (fs : Fs) (f : HostState → HostState)
    (s : HostState) (hl : Manager.Load fs.file = Except.ok s)
    (hok : (loadMutateSave fs f).1 = Except.ok ()) :
    (loadMutateSave fs f).2.file = FileRead.valid (HostState.toRaw (f s)) := by
  unfold loadMutateSave at *
  rw [hl] at hok ⊢
  exact save_ok_file _ _ hok

/-- On failure, a mutator leaves the file unchanged. -/
theorem loadMutateSave_fail_file (fs : Fs) (f : HostState → HostState)
    (e : GoError) (hfail : (loadMutateSave fs f).1 = Except.error e) :
    (loadMutateSave fs f).2.file = fs.file := by
  unfold loadMutateSave at *
  rcases hl : Manager.Load fs.file with e' | s
  · rfl
  · rw [hl] at hfail
    exact save_fail_file _ _ _ hfail

/-- A mutator whose mutation does not touch the `initialized` flag keeps
`loadsUninit`. -/
theorem loadMutateSave_preserves_uninit (fs : Fs) (f : HostState → HostState)
    (hf : ∀ s, (f s).initialized = s.initialized)
    (h : loadsUninit fs.file) : loadsUninit (loadMutateSave fs f).2.file := by
  rcases loadMutateSave_file_cases fs f with hc | ⟨s, hl, hc⟩
  · rw [hc]; exact h
  · rw [hc]
    intro s' hs'
    rw [load_toRaw] at hs'
    injection hs' with h2
    rw [← h2, hf s]
    exact h s hl

/-! ## Claim theorems -/

/-- **C7**: `load()` returns a fresh zero-value state (`initialized = false`,
empty cluster map), not an error, when no state file exists; returns the
persisted state (with a nil clusters map normalized to empty) when the file
parses; and returns a hard error — never a silently discarded record — when
the file exists but is unparseable. -/
theorem load_contract :
    (∃ s, Manager.Load FileRead.missing = Except.ok s ∧
       s.initialized = false ∧ s.clusters = ([] : Clusters)) ∧
    (∀ raw, Manager.Load (FileRead.valid raw) =
       Except.ok
         { initialized := raw.initialized
           initializedAt := raw.initializedAt
           instanceType := raw.instanceType
           storageType := raw.storageType
           storageDevice := raw.storageDevice
           packagesInstalled := raw.packagesInstalled
           baseClusterReady := raw.baseClusterReady
           registryRunning := raw.registryRunning
           clusters := raw.clusters.getD [] }) ∧
    (∃ e, Manager.Load FileRead.corrupt = Except.error e) :=
  ⟨⟨_, rfl, rfl, rfl⟩, fun _ => rfl, ⟨_, rfl⟩⟩

/-- **C10**: a state file that parses but has no (or a null) `clusters`
field loads to a state whose cluster map is the empty map, on which every
map operation is well-defined (lookup of any name returns `none`). -/
theorem load_nil_clusters_empty (raw : RawHostState) (h : raw.clusters = none) :
    ∃ s, Manager.Load (FileRead.valid raw) = Except.ok s ∧
      s.clusters = ([] : Clusters) ∧
      ∀ n, Clusters.find s.clusters n = none := by
  refine ⟨_, rfl, ?_, ?_⟩
  · show raw.clusters.getD [] = []
    rw [h]
    rfl
  · intro n
    show Clusters.find (raw.clusters.getD []) n = none
    rw [h]
    rfl

/-- A concrete state file with `clusters` absent (nil map). -/
def rawNoClusters : RawHostState :=
  { initialized := true
    initializedAt := some 5
    instanceType := "m5zn.metal"
    storageType := "nvme"
    storageDevice := "/dev/nvme1n1"
    packagesInstalled := true
    baseClusterReady := true
    registryRunning := true
    clusters := none }

/-- **C10** witness: evaluating `Manager.Load` on a concrete parsed file
with a nil clusters map. -/
theorem load_nil_clusters_empty_witness :
    ∃ s, Manager.Load (FileRead.valid rawNoClusters) = Except.ok s ∧
      s.clusters = ([] : Clusters) ∧
      ∀ n, Clusters.find s.clusters n = none :=
  load_nil_clusters_empty rawNoClusters rfl

/-- **C2** counterexample: one call to `Manager.Save` performs exactly one
file-system operation, and that operation is a direct `WriteFile` of the
state path itself — not the two-operation write-to-temp-file-then-rename
sequence the claim asserts. -/
theorem save_ops_direct_write_cx :
    Manager.SaveOps = [FsOp.writeFile StateFilePath] ∧
    List.length Manager.SaveOps = 1 := ⟨rfl, rfl⟩

/-- **C2** (amended): `Manager.Save` serializes the full state and writes it
with a single direct truncate-and-write (`ioutil.WriteFile`) of the state
file path; no temporary file and no rename are used, so the
atomic-visibility contract is not met by this implementation. -/
theorem save_truncate_and_write :
    Manager.SaveOps = [FsOp.writeFile StateFilePath] := rfl

/-- **C5**: a delete request for the reserved infrastructure cluster
`"kind"` always fails with Forbidden, invokes no Adapter delete, and leaves
the State Store (and the whole file system model) unchanged. -/
theorem delete_reserved_forbidden (env : Env) (fs : Fs) :
    handleDeleteCluster env fs "kind" =
      (DeleteResult.forbidden "Cannot delete infrastructure cluster", fs,
       ([] : List ExtCall)) := rfl

/-- **C4**: a create request whose (nonempty) name is already present in the
State Store's cluster map fails with Conflict, makes no Adapter call, and
leaves the file system — hence the stored entry for that name — unchanged. -/
theorem create_conflict (env : Env) (fs : Fs) (req : ClusterCreateRequest)
    (s : HostState) (info : ClusterInfo)
    (hname : req.name ≠ "")
    (hload : Manager.Load fs.file = Except.ok s)
    (hfind : Clusters.find s.clusters req.name = some info) :
    handleCreateCluster env fs req =
      (CreateResult.conflict ("Cluster " ++ req.name ++ " already exists"),
       fs, ([] : List ExtCall)) := by
  simp only [handleCreateCluster, if_neg hname, hload, hfind]

/-- An oracle in which every external call succeeds. -/
def envOk : Env :=
  { now := 0
    detectStorage := Except.ok { hasNVMe := false, device := "", type := "ebs-only" }
    getInstanceType := Except.ok "m5.large"
    installPackages := Except.ok ()
    setupNVMeStorage := fun _ => Except.ok ()
    setupDefaultStorage := Except.ok ()
    createRegistry := Except.ok ()
    createCluster := fun _ _ => Except.ok ()
    deleteCluster := fun _ => Except.ok ()
    loadImage := fun _ _ => Except.ok ()
    getKubeconfig := fun _ => Except.ok "apiVersion: v1" }

/-- A concrete development-cluster entry. -/
def infoDev1 : ClusterInfo :=
  { status := "running", created := some 1, type := "development",
    kubevirt := false }

/-- A concrete parsed state file already containing cluster `"dev1"`. -/
def rawWithDev1 : RawHostState :=
  { initialized := true
    initializedAt := some 5
    instanceType := "m5.large"
    storageType := "ebs-only"
    storageDevice := ""
    packagesInstalled := true
    baseClusterReady := true
    registryRunning := true
    clusters := some [("dev1", infoDev1)] }

/-- **C4** witness: creating `"dev1"` twice — the second call, with
`"dev1"` already stored, answers Conflict, calls no external tool, and
leaves the store untouched. -/
theorem create_conflict_witness :
    handleCreateCluster envOk
        { file := FileRead.valid rawWithDev1, writeFails := [] }
        { name := "dev1", kubevirt := false } =
      (CreateResult.conflict "Cluster dev1 already exists",
       { file := FileRead.valid rawWithDev1, writeFails := [] },
       ([] : List ExtCall)) :=
  create_conflict envOk _ _ _ infoDev1 (by decide) rfl rfl

/-- **C6**: deleting a non-reserved cluster whose external delete succeeds
reports success to the caller even when the subsequent state-removal step
fails; the removal failure leaves the stored file unchanged and is not
surfaced. -/
theorem delete_state_removal_best_effort (env : Env) (fs : Fs)
    (name : String) (e : GoError)
    (hname : name ≠ "kind")
    (hdel : env.deleteCluster name = Except.ok ())
    (hrem : (Manager.RemoveCluster fs name).1 = Except.error e) :
    handleDeleteCluster env fs name =
      (DeleteResult.success ("Cluster " ++ name ++ " deleted"),
       (Manager.RemoveCluster fs name).2, [ExtCall.deleteCluster name]) ∧
    (handleDeleteCluster env fs name).2.1.file = fs.file := by
  have hfile : (Manager.RemoveCluster fs name).2.file = fs.file := by
    rw [removeCluster_eq] at hrem ⊢
    exact loadMutateSave_fail_file _ _ _ hrem
  have hh : handleDeleteCluster env fs name =
      (DeleteResult.success ("Cluster " ++ name ++ " deleted"),
       (Manager.RemoveCluster fs name).2, [ExtCall.deleteCluster name]) := by
    simp only [handleDeleteCluster, if_neg hname, hdel]
  exact ⟨hh, by rw [hh]; exact hfile⟩

/-- **C6** witness: with a corrupt state file the state-removal step fails,
yet the delete request still succeeds. -/
theorem delete_state_removal_best_effort_witness :
    handleDeleteCluster envOk { file := FileRead.corrupt, writeFails := [] }
        "dev1" =
      (DeleteResult.success "Cluster dev1 deleted",
       (Manager.RemoveCluster
          { file := FileRead.corrupt, writeFails := [] } "dev1").2,
       [ExtCall.deleteCluster "dev1"]) ∧
    (handleDeleteCluster envOk { file := FileRead.corrupt, writeFails := [] }
        "dev1").2.1.file = FileRead.corrupt :=
  delete_state_removal_best_effort envOk
    { file := FileRead.corrupt, writeFails := [] } "dev1"
    "failed to parse state file: invalid character" (by decide) rfl rfl

/-- **C9** (implicit): when the external cluster creation succeeds but the
State Store commit fails, the create request still answers 201 with the
cluster body; the file is unchanged, so a later `getCluster` for the same
name reports NotFound. -/
theorem create_commit_failure_still_created (env : Env) (fs : Fs)
    (req : ClusterCreateRequest) (s : HostState) (e : GoError)
    (hname : req.name ≠ "")
    (hload : Manager.Load fs.file = Except.ok s)
    (hfind : Clusters.find s.clusters req.name = none)
    (hext : env.createCluster req.name true = Except.ok ())
    (hupd : (Manager.UpdateCluster env.now fs req.name "running"
        (if req.name = "kind" then "infrastructure" else "development")
        req.kubevirt).1 = Except.error e) :
    (handleCreateCluster env fs req).1 =
      CreateResult.created
        { name := req.name
          status := "running"
          created := none
          type := if req.name = "kind" then "infrastructure" else "development"
          kubevirt := req.kubevirt } ∧
    (handleCreateCluster env fs req).2.1.file = fs.file ∧
    handleGetCluster (handleCreateCluster env fs req).2.1 req.name =
      GetResult.notFound := by
  have hfile : (Manager.UpdateCluster env.now fs req.name "running"
      (if req.name = "kind" then "infrastructure" else "development")
      req.kubevirt).2.file = fs.file := by
    rw [updateCluster_eq] at hupd ⊢
    exact loadMutateSave_fail_file _ _ _ hupd
  have hh : handleCreateCluster env fs req =
      (CreateResult.created
        { name := req.name
          status := "running"
          created := none
          type := if req.name = "kind" then "infrastructure" else "development"
          kubevirt := req.kubevirt },
       (Manager.UpdateCluster env.now fs req.name "running"
          (if req.name = "kind" then "infrastructure" else "development")
          req.kubevirt).2,
       [ExtCall.createCluster req.name true]) := by
    simp only [handleCreateCluster, if_neg hname, hload, hfind, hext]
  refine ⟨by rw [hh], by rw [hh]; exact hfile, ?_⟩
  rw [hh]
  simp only [handleGetCluster, hfile, hload, hfind]

/-- A concrete parsed state file with an empty cluster map. -/
def rawEmpty : RawHostState :=
  { initialized := true
    initializedAt := some 5
    instanceType := "m5.large"
    storageType := "ebs-only"
    storageDevice := ""
    packagesInstalled := true
    baseClusterReady := true
    registryRunning := true
    clusters := some [] }

/-- A file system whose next write fails. -/
def fsUpdFail : Fs := { file := FileRead.valid rawEmpty, writeFails := [true] }

/-- **C9** witness: external creation of `"dev1"` succeeds, the state commit
write fails, and the request still answers 201 while a follow-up
`getCluster "dev1"` is NotFound. -/
theorem create_commit_failure_still_created_witness :
    (handleCreateCluster envOk fsUpdFail
        { name := "dev1", kubevirt := false }).1 =
      CreateResult.created
        { name := "dev1", status := "running", created := none,
          type := "development", kubevirt := false } ∧
    (handleCreateCluster envOk fsUpdFail
        { name := "dev1", kubevirt := false }).2.1.file =
      FileRead.valid rawEmpty ∧
    handleGetCluster
        (handleCreateCluster envOk fsUpdFail
          { name := "dev1", kubevirt := false }).2.1 "dev1" =
      GetResult.notFound :=
  create_commit_failure_still_created envOk fsUpdFail
    { name := "dev1", kubevirt := false } _ _ (by decide) rfl rfl rfl rfl

/-- **C3**: when the loaded HostState already has `initialized = true`, the
startup path returns success immediately, runs none of the initializer
steps, and performs no external calls at all. -/
theorem startup_skip_when_marked (env : Env) (fs : Fs) (s : HostState)
    (hload : Manager.Load fs.file = Except.ok s)
    (hinit : s.initialized = true) :
    startupInit env fs = (Except.ok (), fs, ([] : List ExtCall)) := by
  simp [startupInit, hload, hinit]

/-- **C3** witness: a second startup against a state file recording
`initialized = true` is a no-op with an empty external-call trace. -/
theorem startup_skip_when_marked_witness :
    startupInit envOk { file := FileRead.valid rawEmpty, writeFails := [] } =
      (Except.ok (),
       { file := FileRead.valid rawEmpty, writeFails := [] },
       ([] : List ExtCall)) :=
  startup_skip_when_marked envOk _ _ rfl rfl

/-- A failing `MarkInitialized` leaves the file's `initialized` flag
unset. -/
theorem markInitialized_fail_uninit (now : Nat) (fs : Fs) (a b c : String)
    (e : GoError)
    (hf : (Manager.MarkInitialized now fs a b c).1 = Except.error e)
    (h : loadsUninit fs.file) :
    loadsUninit (Manager.MarkInitialized now fs a b c).2.file := by
  rw [markInitialized_eq] at hf ⊢
  rw [loadMutateSave_fail_file _ _ _ hf]
  exact h

/-- `createBaseInfrastructure` only runs mutators that never touch the
`initialized` flag, so it preserves `loadsUninit` on every path. -/
theorem createBaseInfra_preserves_uninit (env : Env) (fs : Fs)
    (h : loadsUninit fs.file) :
    loadsUninit (createBaseInfra env fs).2.1.file := by
  have h1 : loadsUninit (Manager.SetRegistryStatus fs true).2.file := by
    rw [setRegistryStatus_eq]
    exact loadMutateSave_preserves_uninit _ _ (fun _ => rfl) h
  unfold createBaseInfra
  split
  · exact h
  · split
    next e1 fs1 heq =>
      rw [heq] at h1
      exact h1
    next u1 fs1 heq =>
      rw [heq] at h1
      have h2 : loadsUninit (Manager.UpdateCluster env.now fs1 "kind"
          "running" "infrastructure" false).2.file := by
        rw [updateCluster_eq]
        exact loadMutateSave_preserves_uninit _ _ (fun _ => rfl) h1
      split
      · exact h1
      · split
        next e3 fs2 heq2 =>
          rw [heq2] at h2
          exact h2
        next u3 fs2 heq2 =>
          rw [heq2] at h2
          have h3 : loadsUninit (Manager.SetBaseClusterReady fs2).2.file := by
            rw [setBaseClusterReady_eq]
            exact loadMutateSave_preserves_uninit _ _ (fun _ => rfl) h2
          split
          next e4 fs3 heq3 =>
            rw [heq3] at h3
            exact h3
          next u4 fs3 heq3 =>
            rw [heq3] at h3
            exact h3

/-- On every path of the initializer, either the stored `initialized` flag
is still unset afterwards, or the whole run succeeded. -/
theorem initRun_uninit_or_ok (env : Env) (fs : Fs)
    (hpre : loadsUninit fs.file) :
    loadsUninit (initRun env fs).2.1.file ∨
    (initRun env fs).1 = Except.ok () := by
  have hbase := createBaseInfra_preserves_uninit env fs hpre
  unfold initRun
  split
  · exact Or.inl hpre
  · split
    · exact Or.inl hpre
    · split
      next e3 trS heq3 => exact Or.inl hpre
      next u3 trS heq3 =>
        split
        next e4 fs1 trB heq4 =>
          rw [heq4] at hbase
          exact Or.inl hbase
        next u4 fs1 trB heq4 =>
          rw [heq4] at hbase
          split
          next e5 fs2 heq5 =>
            left
            have h2 := markInitialized_fail_uninit env.now fs1 _ _ _ e5
              (by rw [heq5]) hbase
            rw [heq5] at h2
            exact h2
          next u5 fs2 heq5 => exact Or.inr rfl

/-- **C1** (amended): if any initializer step fails, the run aborts with an
error and a subsequent `load()` still reports `initialized = false`
(`markInitialized` is the last write of the sequence and the only one that
sets the flag).  The original claim's further assertion — that no
partial-success state is committed mid-sequence — fails on the code; see
the counterexample. -/
theorem init_fail_leaves_uninit (env : Env) (fs : Fs) (e : GoError)
    (hpre : loadsUninit fs.file)
    (hfail : (initRun env fs).1 = Except.error e) :
    loadsUninit (initRun env fs).2.1.file := by
  rcases initRun_uninit_or_ok env fs hpre with h | h
  · exact h
  · rw [h] at hfail
    simp at hfail

/-- An oracle in which everything succeeds except the base-cluster
creation. -/
def envBoom : Env := { envOk with createCluster := fun _ _ => Except.error "boom" }

/-- A fresh host: no state file yet, all writes succeed. -/
def fsFresh : Fs := { file := FileRead.missing, writeFails := [] }

/-- **C1** counterexample: on a fresh host, when registry creation succeeds
and base-cluster creation then fails, the run aborts — but
`setRegistryRunning(true)` has already been committed: the state file went
from missing to a record with `registry_running = true` (and
`initialized = false`), i.e. partial-success state was committed
mid-sequence. -/
theorem init_partial_commit_cx :
    (initRun envBoom fsFresh).1 =
      Except.error
        "failed to create base infrastructure: failed to create base cluster: boom" ∧
    fsFresh.file = FileRead.missing ∧
    (initRun envBoom fsFresh).2.1.file =
      FileRead.valid
        { initialized := false
          initializedAt := none
          instanceType := ""
          storageType := ""
          storageDevice := ""
          packagesInstalled := false
          baseClusterReady := false
          registryRunning := true
          clusters := some [] } := ⟨rfl, rfl, rfl⟩

/-- **C1** witness: the amended theorem applied to the concrete failing run
above: it aborts, and afterwards the stored state still loads with
`initialized = false`. -/
theorem init_fail_leaves_uninit_witness :
    (initRun envBoom fsFresh).1 =
      Except.error
        "failed to create base infrastructure: failed to create base cluster: boom" ∧
    loadsUninit (initRun envBoom fsFresh).2.1.file :=
  ⟨rfl,
   init_fail_leaves_uninit envBoom fsFresh
     "failed to create base infrastructure: failed to create base cluster: boom"
     (fun s hs => by injection hs with h2; rw [← h2])
     rfl⟩

/-! ## The infrastructure-cluster invariant (C8) -/

/-- The entries of a cluster map whose type is `infrastructure`. -/
def infraEntries (cs : Clusters) : Clusters :=
  List.filter (fun kv => kv.2.type == "infrastructure") cs

/-- Filtering by key commutes with filtering by type. -/
theorem infraEntries_filterKey (cs : Clusters) (k : String) :
    infraEntries (List.filter (fun kv => kv.1 != k) cs) =
      List.filter (fun kv => kv.1 != k) (infraEntries cs) := by
  unfold infraEntries
  rw [List.filter_filter, List.filter_filter]
  congr 1
  funext kv
  exact Bool.and_comm _ _

/-- Inserting a non-infrastructure entry only removes key `k` from the
infrastructure entries. -/
theorem infraEntries_insert_dev (cs : Clusters) (k : String) (v : ClusterInfo)
    (hv : v.type ≠ "infrastructure") :
    infraEntries (Clusters.insert cs k v) =
      List.filter (fun kv => kv.1 != k) (infraEntries cs) := by
  unfold Clusters.insert
  rw [show infraEntries (List.filter (fun kv => kv.1 != k) cs ++ [(k, v)]) =
        infraEntries (List.filter (fun kv => kv.1 != k) cs) ++
          infraEntries [(k, v)] from List.filter_append _ _]
  have h1 : infraEntries [(k, v)] = [] := by
    have h2 : (v.type == "infrastructure") = false := beq_eq_false_iff_ne.mpr hv
    unfold infraEntries
    simp [List.filter, h2]
  rw [h1, List.append_nil, infraEntries_filterKey]

/-- Erasing key `k` only removes key `k` from the infrastructure entries. -/
theorem infraEntries_erase (cs : Clusters) (k : String) :
    infraEntries (Clusters.erase cs k) =
      List.filter (fun kv => kv.1 != k) (infraEntries cs) :=
  infraEntries_filterKey cs k

/-- Filtering the reserved entry by a different key keeps it. -/
theorem filter_singleton_kind (info : ClusterInfo) (k : String)
    (hk : k ≠ "kind") :
    List.filter (fun kv => kv.1 != k) [(("kind" : String), info)] =
      [(("kind" : String), info)] := by
  have h : (("kind" : String) != k) = true :=
    bne_iff_ne.mpr (fun h2 => hk (Eq.symm h2))
  simp [List.filter, h]

/-- If the infrastructure entries are exactly the reserved `"kind"` entry,
then lookup of `"kind"` in the map cannot be `none`. -/
theorem find_kind_of_infra (cs : Clusters) (info : ClusterInfo)
    (hinfra : infraEntries cs = [("kind", info)])
    (hnone : Clusters.find cs "kind" = none) : False := by
  have hmem : (("kind", info) : String × ClusterInfo) ∈ cs := by
    have : (("kind", info) : String × ClusterInfo) ∈ infraEntries cs := by
      rw [hinfra]; exact List.mem_singleton.mpr rfl
    exact List.mem_of_mem_filter this
  have hfind : List.find? (fun kv => kv.1 == "kind") cs = none :=
    Option.map_eq_none'.mp hnone
  have := List.find?_eq_none.mp hfind _ hmem
  simp at this

/-- `SetRegistryStatus` success stores the loaded state with the flag set. -/
theorem setRegistryStatus_ok_file (fs : Fs) (b : Bool) (s : HostState)
    (hl : Manager.Load fs.file = Except.ok s)
    (hok : (Manager.SetRegistryStatus fs b).1 = Except.ok ()) :
    (Manager.SetRegistryStatus fs b).2.file =
      FileRead.valid (HostState.toRaw { s with registryRunning := b }) := by
  rw [setRegistryStatus_eq] at hok ⊢
  exact loadMutateSave_ok_file _ _ s hl hok

/-- `UpdateCluster` success stores the loaded state with the entry
upserted. -/
theorem updateCluster_ok_file (now : Nat) (fs : Fs)
    (name status ct : String) (kv : Bool) (s : HostState)
    (hl : Manager.Load fs.file = Except.ok s)
    (hok : (Manager.UpdateCluster now fs name status ct kv).1 = Except.ok ()) :
    (Manager.UpdateCluster now fs name status ct kv).2.file =
      FileRead.valid (HostState.toRaw
        { s with
          clusters := Clusters.insert s.clusters name
            { status := status, created := some now, type := ct,
              kubevirt := kv } }) := by
  rw [updateCluster_eq] at hok ⊢
  exact loadMutateSave_ok_file _ _ s hl hok

/-- `SetBaseClusterReady` success stores the loaded state with the flag
set. -/
theorem setBaseClusterReady_ok_file (fs : Fs) (s : HostState)
    (hl : Manager.Load fs.file = Except.ok s)
    (hok : (Manager.SetBaseClusterReady fs).1 = Except.ok ()) :
    (Manager.SetBaseClusterReady fs).2.file =
      FileRead.valid (HostState.toRaw { s with baseClusterReady := true }) := by
  rw [setBaseClusterReady_eq] at hok ⊢
  exact loadMutateSave_ok_file _ _ s hl hok

/-- `MarkInitialized` success stores the loaded state with the
initialization fields set. -/
theorem markInitialized_ok_file (now : Nat) (fs : Fs) (a b c : String)
    (s : HostState)
    (hl : Manager.Load fs.file = Except.ok s)
    (hok : (Manager.MarkInitialized now fs a b c).1 = Except.ok ()) :
    (Manager.MarkInitialized now fs a b c).2.file =
      FileRead.valid (HostState.toRaw
        { s with
          initialized := true
          initializedAt := some now
          instanceType := a
          storageType := b
          storageDevice := c
          packagesInstalled := true }) := by
  rw [markInitialized_eq] at hok ⊢
  exact loadMutateSave_ok_file _ _ s hl hok

/-- `UpdateCluster` either leaves the file unchanged or stores the upserted
state. -/
theorem updateCluster_file_cases (now : Nat) (fs : Fs)
    (name status ct : String) (kv : Bool) :
    (Manager.UpdateCluster now fs name status ct kv).2.file = fs.file ∨
    ∃ s, Manager.Load fs.file = Except.ok s ∧
      (Manager.UpdateCluster now fs name status ct kv).2.file =
        FileRead.valid (HostState.toRaw
          { s with
            clusters := Clusters.insert s.clusters name
              { status := status, created := some now, type := ct,
                kubevirt := kv } }) := by
  rw [updateCluster_eq]
  exact loadMutateSave_file_cases _ _

/-- `RemoveCluster` either leaves the file unchanged or stores the erased
state. -/
theorem removeCluster_file_cases (fs : Fs) (name : String) :
    (Manager.RemoveCluster fs name).2.file = fs.file ∨
    ∃ s, Manager.Load fs.file = Except.ok s ∧
      (Manager.RemoveCluster fs name).2.file =
        FileRead.valid (HostState.toRaw
          { s with clusters := Clusters.erase s.clusters name }) := by
  rw [removeCluster_eq]
  exact loadMutateSave_file_cases _ _

/-- `SetRegistryStatus` either leaves the file unchanged or stores the
flagged state. -/
theorem setRegistryStatus_file_cases (fs : Fs) (b : Bool) :
    (Manager.SetRegistryStatus fs b).2.file = fs.file ∨
    ∃ s, Manager.Load fs.file = Except.ok s ∧
      (Manager.SetRegistryStatus fs b).2.file =
        FileRead.valid (HostState.toRaw { s with registryRunning := b }) := by
  rw [setRegistryStatus_eq]
  exact loadMutateSave_file_cases _ _

/-- On a successful `createBaseInfrastructure` run, the file ends holding
the loaded state with the registry flagged running, the reserved `"kind"`
infrastructure cluster inserted, and the base cluster flagged ready. -/
theorem createBaseInfra_ok_shape (env : Env) (fs : Fs) (s : HostState)
    (out : Except GoError Unit × Fs × List ExtCall)
    (hl : Manager.Load fs.file = Except.ok s)
    (heq : createBaseInfra env fs = out)
    (hok : out.1 = Except.ok ()) :
    out.2.1.file = FileRead.valid (HostState.toRaw
      { s with
        registryRunning := true
        clusters := Clusters.insert s.clusters "kind"
          { status := "running", created := some env.now,
            type := "infrastructure", kubevirt := false }
        baseClusterReady := true }) := by
  unfold createBaseInfra at heq
  split at heq
  · rw [← heq] at hok; simp at hok
  · split at heq
    next e1 fs1 hsr => rw [← heq] at hok; simp at hok
    next u1 fs1 hsr =>
      have h1 : fs1.file = FileRead.valid (HostState.toRaw
          { s with registryRunning := true }) := by
        have hx := setRegistryStatus_ok_file fs true s hl (by rw [hsr])
        rw [hsr] at hx
        exact hx
      have hl1 : Manager.Load fs1.file =
          Except.ok { s with registryRunning := true } := by
        rw [h1]; exact load_toRaw _
      split at heq
      · rw [← heq] at hok; simp at hok
      · split at heq
        next e3 fs2 hup => rw [← heq] at hok; simp at hok
        next u3 fs2 hup =>
          have h2 : fs2.file = FileRead.valid (HostState.toRaw
              { s with
                registryRunning := true
                clusters := Clusters.insert s.clusters "kind"
                  { status := "running", created := some env.now,
                    type := "infrastructure", kubevirt := false } }) := by
            have hx := updateCluster_ok_file env.now fs1 "kind" "running"
              "infrastructure" false _ hl1 (by rw [hup])
            rw [hup] at hx
            exact hx
          have hl2 : Manager.Load fs2.file = Except.ok
              { s with
                registryRunning := true
                clusters := Clusters.insert s.clusters "kind"
                  { status := "running", created := some env.now,
                    type := "infrastructure", kubevirt := false } } := by
            rw [h2]; exact load_toRaw _
          split at heq
          next e4 fs3 hsb => rw [← heq] at hok; simp at hok
          next u4 fs3 hsb =>
            have h3 : fs3.file = FileRead.valid (HostState.toRaw
                { s with
                  registryRunning := true
                  clusters := Clusters.insert s.clusters "kind"
                    { status := "running", created := some env.now,
                      type := "infrastructure", kubevirt := false }
                  baseClusterReady := true }) := by
              have hx := setBaseClusterReady_ok_file fs2 _ hl2 (by rw [hsb])
              rw [hsb] at hx
              exact hx
            rw [← heq]
            exact h3

/-- On a successful initializer run, the final stored state is marked
initialized and its cluster map is the loaded one with the reserved
`"kind"` infrastructure entry upserted. -/
theorem initRun_ok_shape (env : Env) (fs : Fs) (s : HostState)
    (out : Except GoError Unit × Fs × List ExtCall)
    (hl : Manager.Load fs.file = Except.ok s)
    (heq : initRun env fs = out)
    (hok : out.1 = Except.ok ()) :
    ∃ s2, Manager.Load out.2.1.file = Except.ok s2 ∧
      s2.initialized = true ∧
      s2.clusters = Clusters.insert s.clusters "kind"
        { status := "running", created := some env.now,
          type := "infrastructure", kubevirt := false } := by
  unfold initRun at heq
  split at heq
  next e1 hde => rw [← heq] at hok; simp at hok
  next storage hde =>
    split at heq
    next e2 hip => rw [← heq] at hok; simp at hok
    next u2 hip =>
      split at heq
      next e3 trS hcs => rw [← heq] at hok; simp at hok
      next u3 trS hcs =>
        split at heq
        next e4 fs1 trB hcb => rw [← heq] at hok; simp at hok
        next u4 fs1 trB hcb =>
          have h1 : fs1.file = FileRead.valid (HostState.toRaw
              { s with
                registryRunning := true
                clusters := Clusters.insert s.clusters "kind"
                  { status := "running", created := some env.now,
                    type := "infrastructure", kubevirt := false }
                baseClusterReady := true }) :=
            createBaseInfra_ok_shape env fs s _ hl hcb rfl
          have hl1 : Manager.Load fs1.file = Except.ok
              { s with
                registryRunning := true
                clusters := Clusters.insert s.clusters "kind"
                  { status := "running", created := some env.now,
                    type := "infrastructure", kubevirt := false }
                baseClusterReady := true } := by
            rw [h1]; exact load_toRaw _
          split at heq
          next e5 fs2 hmi => rw [← heq] at hok; simp at hok
          next u5 fs2 hmi =>
            have h2 := markInitialized_ok_file env.now fs1 _ _ _ _ hl1
              (by rw [hmi])
            rw [hmi] at h2
            have h2f : fs2.file = FileRead.valid (HostState.toRaw
                { s with
                  initialized := true
                  initializedAt := some env.now
                  instanceType :=
                    match env.getInstanceType with
                    | Except.ok t => t
                    | Except.error _ => "unknown"
                  storageType := storage.type
                  storageDevice := storage.device
                  packagesInstalled := true
                  registryRunning := true
                  clusters := Clusters.insert s.clusters "kind"
                    { status := "running", created := some env.now,
                      type := "infrastructure", kubevirt := false }
                  baseClusterReady := true }) := h2
            have hload2 : Manager.Load fs2.file = Except.ok
                { s with
                  initialized := true
                  initializedAt := some env.now
                  instanceType :=
                    match env.getInstanceType with
                    | Except.ok t => t
                    | Except.error _ => "unknown"
                  storageType := storage.type
                  storageDevice := storage.device
                  packagesInstalled := true
                  registryRunning := true
                  clusters := Clusters.insert s.clusters "kind"
                    { status := "running", created := some env.now,
                      type := "infrastructure", kubevirt := false }
                  baseClusterReady := true } := by
              rw [h2f]; exact load_toRaw _
            rw [← heq]
            exact ⟨_, hload2, rfl, rfl⟩

/-- `Manager.Load` is deterministic. -/
theorem load_det {f : FileRead} {s t : HostState}
    (h1 : Manager.Load f = Except.ok s)
    (h2 : Manager.Load f = Except.ok t) : s = t := by
  rw [h1] at h2
  injection h2

/-- An entry of `infraEntries` has type `infrastructure`. -/
theorem infraEntries_type (cs : Clusters) (info : ClusterInfo)
    (h : infraEntries cs = [("kind", info)]) :
    info.type = "infrastructure" := by
  have hmem : (("kind", info) : String × ClusterInfo) ∈ infraEntries cs := by
    rw [h]; exact List.mem_singleton.mpr rfl
  have h2 := List.of_mem_filter hmem
  simpa using h2

/-- The C8 invariant: the stored state loads, and its infrastructure-typed
entries are exactly the one reserved `"kind"` entry. -/
def infraInvariant (fs : Fs) : Prop :=
  ∃ s info, Manager.Load fs.file = Except.ok s ∧
    infraEntries s.clusters = [("kind", info)]

/-- The file systems reachable through the core: a successful initializer
run on a fresh host, followed by any sequence of cluster-create,
cluster-delete and registry-start requests (the remaining operations do not
write the store). -/
inductive Reachable : Fs → Prop where
  | boot (env : Env) (fs fsOut : Fs) (tr : List ExtCall)
      (hfresh : fs.file = FileRead.missing)
      (hrun : initRun env fs = (Except.ok (), fsOut, tr)) : Reachable fsOut
  | create (env : Env) (fs : Fs) (req : ClusterCreateRequest)
      (h : Reachable fs) : Reachable (handleCreateCluster env fs req).2.1
  | del (env : Env) (fs : Fs) (name : String)
      (h : Reachable fs) : Reachable (handleDeleteCluster env fs name).2.1
  | registryStart (env : Env) (fs : Fs)
      (h : Reachable fs) : Reachable (handleRegistryStart env fs).2.1

/-- A successful initializer run on a fresh host establishes the
invariant. -/
theorem boot_invariant (env : Env) (fs fsOut : Fs) (tr : List ExtCall)
    (hfresh : fs.file = FileRead.missing)
    (hrun : initRun env fs = (Except.ok (), fsOut, tr)) :
    infraInvariant fsOut := by
  have hl : Manager.Load fs.file = Except.ok
      { initialized := false, initializedAt := none, instanceType := "",
        storageType := "", storageDevice := "", packagesInstalled := false,
        baseClusterReady := false, registryRunning := false,
        clusters := [] } := by
    rw [hfresh]; rfl
  obtain ⟨s2, hload, hinit2, hclusters⟩ :=
    initRun_ok_shape env fs _ _ hl hrun rfl
  refine ⟨s2,
    { status := "running", created := some env.now,
      type := "infrastructure", kubevirt := false }, hload, ?_⟩
  rw [hclusters]
  rfl

/-- The create handler preserves the invariant: a duplicate or failed
request leaves the store alone, and a successful one inserts a
`development` entry under a name different from `"kind"` (creating
`"kind"` itself is impossible, since the invariant makes the duplicate
check fire). -/
theorem create_preserves_invariant (env : Env) (fs : Fs)
    (req : ClusterCreateRequest) (h : infraInvariant fs) :
    infraInvariant (handleCreateCluster env fs req).2.1 := by
  obtain ⟨s, info, hl, hinfra⟩ := h
  unfold infraInvariant
  unfold handleCreateCluster
  split
  · exact ⟨s, info, hl, hinfra⟩
  next hne =>
    split
    next e hload => exact ⟨s, info, hl, hinfra⟩
    next hostState hload =>
      rw [hl] at hload
      injection hload with h2
      subst h2
      split
      next info2 hfind => exact ⟨s, info, hl, hinfra⟩
      next hfind =>
        split
        next e2 hcc => exact ⟨s, info, hl, hinfra⟩
        next u2 hcc =>
          by_cases hk : req.name = "kind"
          · exact absurd (hk ▸ hfind) (fun hx =>
              find_kind_of_infra _ info hinfra hx)
          · show ∃ s2 i2, Manager.Load (Manager.UpdateCluster env.now fs
                req.name "running"
                (if req.name = "kind" then "infrastructure" else "development")
                req.kubevirt).2.file = Except.ok s2 ∧
              infraEntries s2.clusters = [("kind", i2)]
            rw [if_neg hk]
            rcases updateCluster_file_cases env.now fs req.name "running"
                "development" req.kubevirt with hc | ⟨s3, hl3, hc⟩
            · exact ⟨s, info, by rw [hc]; exact hl, hinfra⟩
            · cases load_det hl3 hl
              refine ⟨{ s with
                  clusters := Clusters.insert s.clusters req.name
                    { status := "running", created := some env.now,
                      type := "development", kubevirt := req.kubevirt } },
                info, ?_, ?_⟩
              · rw [hc]; exact load_toRaw _
              · show infraEntries (Clusters.insert s.clusters req.name
                  { status := "running", created := some env.now,
                    type := "development", kubevirt := req.kubevirt }) =
                  [("kind", info)]
                rw [infraEntries_insert_dev _ _ _
                  (show ("development" : String) ≠ "infrastructure" by decide),
                  hinfra]
                exact filter_singleton_kind info req.name hk

/-- The delete handler preserves the invariant: the reserved name is
refused, failures leave the store alone, and a successful removal only
erases a non-`"kind"` key. -/
theorem delete_preserves_invariant (env : Env) (fs : Fs) (name : String)
    (h : infraInvariant fs) :
    infraInvariant (handleDeleteCluster env fs name).2.1 := by
  obtain ⟨s, info, hl, hinfra⟩ := h
  unfold infraInvariant
  unfold handleDeleteCluster
  split
  · exact ⟨s, info, hl, hinfra⟩
  next hk =>
    split
    next e hdel => exact ⟨s, info, hl, hinfra⟩
    next u hdel =>
      show ∃ s2 i2, Manager.Load (Manager.RemoveCluster fs name).2.file =
          Except.ok s2 ∧ infraEntries s2.clusters = [("kind", i2)]
      rcases removeCluster_file_cases fs name with hc | ⟨s3, hl3, hc⟩
      · exact ⟨s, info, by rw [hc]; exact hl, hinfra⟩
      · cases load_det hl3 hl
        refine ⟨{ s with clusters := Clusters.erase s.clusters name },
          info, ?_, ?_⟩
        · rw [hc]; exact load_toRaw _
        · show infraEntries (Clusters.erase s.clusters name) = [("kind", info)]
          rw [infraEntries_erase, hinfra]
          exact filter_singleton_kind info name hk

/-- The registry-start handler preserves the invariant: it never touches
the cluster map. -/
theorem registryStart_preserves_invariant (env : Env) (fs : Fs)
    (h : infraInvariant fs) :
    infraInvariant (handleRegistryStart env fs).2.1 := by
  obtain ⟨s, info, hl, hinfra⟩ := h
  unfold infraInvariant
  unfold handleRegistryStart
  split
  next e hreg => exact ⟨s, info, hl, hinfra⟩
  next u hreg =>
    show ∃ s2 i2, Manager.Load (Manager.SetRegistryStatus fs true).2.file =
        Except.ok s2 ∧ infraEntries s2.clusters = [("kind", i2)]
    rcases setRegistryStatus_file_cases fs true with hc | ⟨s3, hl3, hc⟩
    · exact ⟨s, info, by rw [hc]; exact hl, hinfra⟩
    · cases load_det hl3 hl
      refine ⟨{ s with registryRunning := true }, info, ?_, hinfra⟩
      rw [hc]; exact load_toRaw _

/-- **C8**: in every store reachable through the core's operations after a
successful initialization, the state loads and its infrastructure-typed
entries are exactly one entry, named by the reserved identifier `"kind"`;
the entry is created by the initializer and preserved (never duplicated,
never deleted) by every request handler. -/
theorem reachable_infra_invariant (fs : Fs) (h : Reachable fs) :
    ∃ s info, Manager.Load fs.file = Except.ok s ∧
      infraEntries s.clusters = [("kind", info)] ∧
      info.type = "infrastructure" := by
  have hinv : infraInvariant fs := by
    induction h with
    | boot env fs0 fsOut tr hfresh hrun =>
        exact boot_invariant env fs0 fsOut tr hfresh hrun
    | create env fs0 req h ih => exact create_preserves_invariant env fs0 req ih
    | del env fs0 name h ih => exact delete_preserves_invariant env fs0 name ih
    | registryStart env fs0 h ih =>
        exact registryStart_preserves_invariant env fs0 ih
  obtain ⟨s, info, hl, hinfra⟩ := hinv
  exact ⟨s, info, hl, hinfra, infraEntries_type _ _ hinfra⟩

/-- The store produced by a concrete successful boot. -/
def fsBoot : Fs := (initRun envOk fsFresh).2.1

/-- **C8** witness: the invariant instantiated at the store of a concrete
successful initializer run on a fresh host. -/
theorem reachable_infra_invariant_witness :
    ∃ s info, Manager.Load fsBoot.file = Except.ok s ∧
      infraEntries s.clusters = [("kind", info)] ∧
      info.type = "infrastructure" :=
  reachable_infra_invariant fsBoot
    (Reachable.boot envOk fsFresh fsBoot (initRun envOk fsFresh).2.2 rfl rfl)
